import Mathlib

/-!
Verification development for the PULSE seismic windowing library.

The Python sources embedded here are:
 - `src/PULSE/data/header.py`   (`MLStats`, and the commented-out `WindowStats` draft)
 - `src/PULSE/data/dictstream.py` (`DictStreamStats`, `DictStream`)
 - `src/PULSE/data/window.py`   (`Window`)
 - `src/ayahos/wyrms/wyrm.py`   (`Wyrm.pulse` and its hook methods)

Conventions of the embedding:
 - Python `dict` objects (which preserve insertion order) are embedded as
   association lists `List (String × α)`; `dict.update` replaces in place or
   appends at the end, `dict.pop` removes the entry.
 - `UTCDateTime` values are embedded as rationals (seconds).
 - Python exceptions are embedded with an explicit `Err` type.  Methods that
   mutate `self` and may raise return `State × Except Err α` (or
   `State × Option Err`), the returned state being the post-state at the time
   of the raise, since CPython commits partial mutations made before a raise.
 - `numpy` data vectors and fold vectors are `List ℚ`; maskedness of a data
   vector (`numpy.ma.MaskedArray`) is carried as a boolean flag.
-/

namespace PULSE

/-- Embedded Python exception values: constructor = exception class, field = message. -/
inductive Err where
  | typeError (msg : String)
  | valueError (msg : String)
  | keyError (msg : String)
  | indexError (msg : String)
  | nameError (msg : String)
  | runtimeError (msg : String)
  | notImplementedError (msg : String)
  deriving Repr, DecidableEq

/-- Decidable equality of embedded fallible results. -/
instance {ε α : Type} [DecidableEq ε] [DecidableEq α] : DecidableEq (Except ε α)
  | .error a, .error b =>
    if h : a = b then .isTrue (h ▸ rfl)
    else .isFalse (by intro hc; injection hc with h2; exact h h2)
  | .error _, .ok _ => .isFalse (by intro hc; exact Except.noConfusion hc)
  | .ok _, .error _ => .isFalse (by intro hc; exact Except.noConfusion hc)
  | .ok a, .ok b =>
    if h : a = b then .isTrue (h ▸ rfl)
    else .isFalse (by intro hc; injection hc with h2; exact h h2)

/-- Leading-match test: does the first list occur at the head of the second? -/
def charsAtHead : List Char → List Char → Bool
  | [], _ => true
  | _ :: _, [] => false
  | a :: as, b :: bs => a == b && charsAtHead as bs

/-- Contiguous-sublist test on character lists. -/
def charsContain (needle : List Char) : List Char → Bool
  | [] => needle.isEmpty
  | b :: bs => charsAtHead needle (b :: bs) || charsContain needle bs

/-- Python string containment `needle in haystack`: contiguous substring test
(note that the empty string is a substring of every string). -/
def strIn (needle haystack : String) : Bool :=
  charsContain needle.data haystack.data

/-- Python `dict` keys, in insertion order. -/
def dictKeys {α : Type} (m : List (String × α)) : List String :=
  m.map Prod.fst

/-- Python `dict.update ⦃k: v⦄`: replace the value in place if `k` is present
(keeping its position), otherwise append the new binding at the end. -/
def dictUpdate {α : Type} (m : List (String × α)) (k : String) (v : α) :
    List (String × α) :=
  if m.any (fun kv => kv.1 == k) then
    m.map (fun kv => if kv.1 == k then (k, v) else kv)
  else
    m ++ [(k, v)]

/-- All suffixes of a character list, longest first. -/
def tailsOf : List Char → List (List Char)
  | [] => [[]]
  | c :: cs => (c :: cs) :: tailsOf cs

/-- Shell-style wildcard matching used by `fnmatch.filter`:
`?` matches one character, `*` matches any run of characters (any suffix
continuation), all other characters match literally.  (The fnmatch
character-class syntax is not used anywhere in the repository and is not
modelled.) -/
def wildMatch : List Char → List Char → Bool
  | [], s => s.isEmpty
  | p :: ps, s =>
    if p = '*' then (tailsOf s).any (fun t => wildMatch ps t)
    else
      match s with
      | [] => false
      | c :: cs => (p = '?' || p = c) && wildMatch ps cs

/-- Output of `fnmatch.filter(names, pat)`: the names matching the pattern, in order. -/
def fnfilter (names : List String) (pat : String) : List String :=
  names.filter (fun n => wildMatch pat.data n.data)

/-!  ### MLStats (src/PULSE/data/header.py, class MLStats)  -/

/-- Default value of the `model` field in `MLStats.defaults`. -/
def defaultModel : String := ""

/-- Default value of the `weight` field in `MLStats.defaults`. -/
def defaultWeight : String := ""

/-- Trace metadata from `PULSE.data.header.MLStats` (an obspy `Stats` extended
with `model` and `weight`).  Only the fields the verified operations read are
embedded. -/
structure MLStats where
  network : String := ""
  station : String := ""
  location : String := ""
  channel : String := ""
  model : String := defaultModel
  weight : String := defaultWeight
  starttime : ℚ := 0
  sampling_rate : ℚ := 1
  npts : ℕ := 0
  deriving Repr, DecidableEq

namespace MLStats

/-- Modelled from the spec (obspy `Stats` is an external collaborator):
`end_time = start_time + (sample_count-1)/sample_rate`. -/
def endtime (s : MLStats) : ℚ :=
  s.starttime + ((s.npts : ℚ) - 1) / s.sampling_rate

/-- `MLStats.get_site`: the `Network.Station.Location` code. -/
def get_site (s : MLStats) : String :=
  s.network ++ "." ++ s.station ++ "." ++ s.location

/-- `MLStats.get_inst`: site plus the channel minus its component character. -/
def get_inst (s : MLStats) : String :=
  s.network ++ "." ++ s.station ++ "." ++ s.location ++ "." ++
    (if s.channel.length > 0 then s.channel.dropRight 1 else "")

/-- `MLStats.get_comp`: the component character (last character of `channel`),
or the empty string for an empty channel code. -/
def get_comp (s : MLStats) : String :=
  if s.channel.length > 0 then s.channel.takeRight 1 else ""

/-- `MLStats.get_mod`: the `Model.Weight` code. -/
def get_mod (s : MLStats) : String :=
  s.model ++ "." ++ s.weight

/-- `MLStats.get_nslc`: the `Network.Station.Location.Channel` code. -/
def get_nslc (s : MLStats) : String :=
  s.network ++ "." ++ s.station ++ "." ++ s.location ++ "." ++ s.channel

/-- `MLStats.get_id`: the NSLC code, with `.model.weight` appended unless both
the model token and the weight token reduce to the empty string. -/
def get_id (s : MLStats) : String :=
  let wt := if s.weight ≠ defaultWeight then s.weight else ""
  let mo := if s.model ≠ defaultModel then s.model else ""
  if wt = "" ∧ mo = "" then s.get_nslc
  else s.get_nslc ++ "." ++ mo ++ "." ++ wt

end MLStats

/-!  ### MLTrace (external Segment collaborator)

`PULSE/data/mltrace.py` is not among the sources; the Segment operations the
buffer and window layers call are modelled from the spec (sections 3 and 6).
-/

/-- Modelled from the spec: a Segment is one channel of data samples, a
parallel per-sample fold vector and metadata; a data vector may be masked
(`numpy.ma.MaskedArray`), recorded here as a flag. -/
structure MLTrace where
  stats : MLStats
  data : List ℚ := []
  fold : List ℚ := []
  masked : Bool := false
  deriving Repr, DecidableEq

namespace MLTrace

/-- Modelled from the spec: `fraction_valid` / `MLTrace.get_fvalid_subset` —
the fraction of samples whose time lies within `[starttime, endtime]`
(a `None` bound is no bound) and whose fold meets the threshold, out of all
samples in that range; 0 when no sample lies in the range. -/
def get_fvalid_subset (tr : MLTrace) (starttime endtime : Option ℚ)
    (threshold : ℚ) : ℚ :=
  let inRange : ℕ → Bool := fun i =>
    let t := tr.stats.starttime + (i : ℚ) / tr.stats.sampling_rate
    (match starttime with | none => true | some st => decide (st ≤ t)) &&
    (match endtime with | none => true | some et => decide (t ≤ et))
  let idx := (List.range tr.fold.length).filter inRange
  if idx.length = 0 then 0
  else ((idx.filter (fun i => decide (threshold ≤ tr.fold.getD i 0))).length : ℚ) /
        (idx.length : ℚ)

/-- Modelled from the spec: `MLTrace.to_zero(method)` zeroes the data vector
and/or the fold vector (`both` zeroes both, `fold` only the fold),
keeping lengths and metadata. -/
def to_zero (tr : MLTrace) (method : String) : MLTrace :=
  if method = "both" then
    { tr with data := List.replicate tr.data.length 0,
              fold := List.replicate tr.fold.length 0 }
  else if method = "fold" then
    { tr with fold := List.replicate tr.fold.length 0 }
  else tr

/-- Modelled from the spec: `MLTrace.set_comp(c)` relabels the trace to
component `c` by replacing the last character of its channel code. -/
def set_comp (tr : MLTrace) (c : String) : MLTrace :=
  { tr with stats := { tr.stats with channel := tr.stats.channel.dropRight 1 ++ c } }

end MLTrace

/-!  ### DictStream (src/PULSE/data/dictstream.py)  -/

/-- Summary metadata of a DictStream (`DictStreamStats`); the `processing`
list is not embedded. -/
structure DictStreamStats where
  common_id : String := "*"
  min_starttime : Option ℚ := none
  max_starttime : Option ℚ := none
  min_endtime : Option ℚ := none
  max_endtime : Option ℚ := none
  deriving Repr, DecidableEq

namespace DictStreamStats

/-- One source conditional of `update_time_range` for a minimum field:
`if self.f is None or self.f > t: self.f = t`. -/
def updMin (cur : Option ℚ) (t : ℚ) : Option ℚ :=
  if cur.isNone || (cur.getD 0 > t : Bool) then some t else cur

/-- One source conditional of `update_time_range` for a maximum field:
`if self.f is None or self.f < t: self.f = t`. -/
def updMax (cur : Option ℚ) (t : ℚ) : Option ℚ :=
  if cur.isNone || (cur.getD 0 < t : Bool) then some t else cur

/-- `DictStreamStats.update_time_range(trace)`: widen each of the four running
extremes to cover the given trace (a `None` field is overwritten).  The four
source conditionals each read and write only their own field, so they are
embedded as one simultaneous record update. -/
def update_time_range (st : DictStreamStats) (tr : MLTrace) : DictStreamStats :=
  { st with
    min_starttime := updMin st.min_starttime tr.stats.starttime,
    max_starttime := updMax st.max_starttime tr.stats.starttime,
    min_endtime := updMin st.min_endtime tr.stats.endtime,
    max_endtime := updMax st.max_endtime tr.stats.endtime }

end DictStreamStats

/-- The six key schemes of `DictStream._attr_keys`. -/
inductive KeyAttr where
  | id | site | inst | instrument | mod | component
  deriving Repr, DecidableEq

/-- Key derivation `trace.key_opts[key_attr]`, from the `MLStats` id
properties in `src/PULSE/data/header.py` (`MLTrace.key_opts` itself lives in
the external mltrace module; the properties it exposes are these). -/
def keyOf (ka : KeyAttr) (s : MLStats) : String :=
  match ka with
  | .id => s.get_id
  | .site => s.get_site
  | .inst => s.get_inst
  | .instrument => s.get_inst
  | .mod => s.get_mod
  | .component => s.get_comp

/-- A keyed trace buffer (`DictStream`): insertion-ordered mapping from key
strings to traces, plus summary stats and the configured default key scheme. -/
structure DictStream where
  stats : DictStreamStats := {}
  traces : List (String × MLTrace) := []
  default_key_attr : KeyAttr := .id
  deriving Repr, DecidableEq

/-!  Common-identity computation (`get_unique_id_elements`,
`get_common_id_elements`, `get_common_id`).  -/

/-- Order-preserving collection of distinct values, as the per-field loops of
`DictStream.get_unique_id_elements` build it. -/
def collectUnique (vals : List String) : List String :=
  vals.foldl (fun acc v => if acc.contains v then acc else acc ++ [v]) []

/-- Character of a string at an index, defaulting out of range (never reached
at the indices these algorithms use). -/
def charAt (s : String) (i : ℕ) : Char :=
  s.data.getD i ' '

/-- Loop of `get_common_id_elements` computing `minlen`: start from the
sentinel 999 and lower it past each shorter value. -/
def codeMinLen (v : List String) : ℕ :=
  v.foldl (fun m s => if s.length < m then s.length else m) 999

/-- Loop of `get_common_id_elements` computing `maxlen`: start from 0 and
raise it past each longer value. -/
def codeMaxLen (v : List String) : ℕ :=
  v.foldl (fun m s => if s.length > m then s.length else m) 0

/-- Per-field token computation of `DictStream.get_common_id_elements`:
`*` for no values, the value itself for one, otherwise a character-by-character
comparison over `range(minlen)`, with a trailing `*` when `minlen ≠ maxlen`,
collapsing to `*` when every compared position disagreed. -/
def commonToken (v : List String) : String :=
  match v with
  | [] => "*"
  | [x] => x
  | x :: xs =>
    let minlen := codeMinLen (x :: xs)
    let maxlen := codeMaxLen (x :: xs)
    let cs := (List.range minlen).map (fun i =>
      if (x :: xs).all (fun s => charAt s i == charAt x i) then charAt x i else '?')
    if cs.all (fun c => c == '?') then "*"
    else if minlen ≠ maxlen then String.mk cs ++ "*"
    else String.mk cs

/-- Distinct values of one identity field across the held traces, in first
appearance order (one component of `get_unique_id_elements`). -/
def uniqueField (f : MLStats → String) (traces : List (String × MLTrace)) :
    List String :=
  collectUnique (traces.map (fun kv => f kv.2.stats))

/-- The six common-id tokens of `DictStream.get_common_id_elements`, in the
field order network, station, location, channel, model, weight. -/
def get_common_id_elements (traces : List (String × MLTrace)) : List String :=
  [ commonToken (uniqueField MLStats.network traces),
    commonToken (uniqueField MLStats.station traces),
    commonToken (uniqueField MLStats.location traces),
    commonToken (uniqueField MLStats.channel traces),
    commonToken (uniqueField MLStats.model traces),
    commonToken (uniqueField MLStats.weight traces) ]

/-- `DictStream.get_common_id`: the six tokens joined with dots. -/
def get_common_id (traces : List (String × MLTrace)) : String :=
  String.intercalate "." (get_common_id_elements traces)

namespace DictStream

/-- `DictStream._add_trace(other, key_attr)`: compute the key, store the trace
under it (or merge into the holder via the external `MLTrace.__add__`,
passed here as `merge`), then widen the stats time range with the incoming
trace and recompute the common id. -/
def _add_trace (merge : MLTrace → MLTrace → MLTrace) (ds : DictStream)
    (other : MLTrace) (key_attr : KeyAttr) : DictStream :=
  let key := keyOf key_attr other.stats
  let traces' :=
    if ds.traces.any (fun kv => kv.1 == key) then
      ds.traces.map (fun kv => if kv.1 == key then (key, merge kv.2 other) else kv)
    else
      ds.traces ++ [(key, other)]
  let stats' := ds.stats.update_time_range other
  { ds with traces := traces',
            stats := { stats' with common_id := get_common_id traces' } }

/-- `DictStream.fnpop(fnstr)`: filter the keys with the wildcard pattern, then
move each matching entry out of the source (`self.pop`) into a fresh
DictStream whose header starts as a copy of the source stats; the source stats
are never touched.  Returns (post-state of the source, popped stream). -/
def fnpop (merge : MLTrace → MLTrace → MLTrace) (ds : DictStream)
    (fnstr : String) : DictStream × DictStream :=
  let hits := fnfilter (dictKeys ds.traces) fnstr
  let init : DictStream × DictStream :=
    (ds, { stats := ds.stats, traces := [], default_key_attr := ds.default_key_attr })
  let step := fun (acc : DictStream × DictStream) (m : String) =>
    match List.lookup m acc.1.traces with
    | none => acc
    | some tr =>
      ({ acc.1 with traces := acc.1.traces.eraseP (fun kv => kv.1 == m) },
       acc.2._add_trace merge tr acc.2.default_key_attr)
  let res := hits.foldl step init
  (res.1,
   { res.2 with stats := { res.2.stats with common_id := get_common_id res.2.traces } })

end DictStream

/-!  ### Window (src/PULSE/data/window.py)

The `WindowStats` header class is imported by window.py from
`PULSE/data/header.py`, where its definition is commented out; its fields and
defaults are modelled from that commented draft and from the spec (section 3,
"Window" attributes).
-/

/-- Modelled from the spec and the commented-out `WindowStats` draft in
header.py: window header with the primary component, the currently designated
secondary components (None until assigned), completeness thresholds, the fold
validity threshold and the target alignment values. -/
structure WindowStats where
  primary_component : String := "Z"
  secondary_components : Option String := none
  primary_threshold : ℚ := 95 / 100
  secondary_threshold : ℚ := 8 / 10
  fold_threshold_level : ℚ := 1
  target_starttime : Option ℚ := none
  target_sampling_rate : Option ℚ := none
  target_npts : Option ℕ := none
  deriving Repr, DecidableEq

namespace WindowStats

/-- Modelled from the commented-out `WindowStats` draft in header.py:
`target_endtime = target_starttime + target_npts/target_sampling_rate`,
derived only once all three target fields are assigned. -/
def target_endtime (st : WindowStats) : Option ℚ :=
  match st.target_starttime, st.target_sampling_rate, st.target_npts with
  | some t0, some sr, some n => some (t0 + (n : ℚ) / sr)
  | _, _, _ => none

/-- `WindowStats.get_unique_secondary_components` (commented draft in
header.py): the distinct characters of `secondary_components` in order, as the
one-character strings Python iteration over a string yields; empty for None. -/
def get_unique_secondary_components (st : WindowStats) : List String :=
  match st.secondary_components with
  | none => []
  | some sc =>
    (sc.data.foldl (fun acc c => if acc.contains c then acc else acc ++ [c]) []).map
      String.singleton

end WindowStats

/-- A `Window`: a DictStream keyed by component code, with a `WindowStats`
header.  Only the traces mapping and the header take part in the verified
operations. -/
structure Window where
  stats : WindowStats := {}
  traces : List (String × MLTrace) := []
  deriving Repr, DecidableEq

namespace Window

/-- `Window.check_fvalid(key, tolerance)`: validate the tolerance, require the
key to be held (KeyError otherwise), then compare the valid fraction over the
target range against the primary or secondary threshold minus the tolerance. -/
def check_fvalid (w : Window) (key : String) (tolerance : ℚ) :
    Except Err Bool :=
  if ¬ (0 ≤ tolerance ∧ tolerance < 1) then
    .error (.valueError "tolerance must be a value in [0, 1)")
  else
    match List.lookup key w.traces with
    | none => .error (.keyError (key ++ " is not present."))
    | some tr =>
      let fv := tr.get_fvalid_subset w.stats.target_starttime
                  w.stats.target_endtime w.stats.fold_threshold_level
      if key = w.stats.primary_component then
        .ok (decide (fv ≥ w.stats.primary_threshold - tolerance))
      else
        .ok (decide (fv ≥ w.stats.secondary_threshold - tolerance))

/-- `Window.run_fvalid_checks(tolerance)`: `check_fvalid` on every held key,
keyed by component code, in holding order. -/
def run_fvalid_checks (w : Window) (tolerance : ℚ) :
    Except Err (List (String × Bool)) :=
  w.traces.mapM (fun kv => (w.check_fvalid kv.1 tolerance).map (fun b => (kv.1, b)))

/-- `Window.set_secondary_components(secondary_components)`: validate the
two-character argument, record it in the header, then de-index all traces
whose key does not occur in `secondary_components + primary_component`.
The source pops entries from `self.traces` while iterating over
`self.traces.keys()`; in CPython the iterator raises
`RuntimeError: dictionary changed size during iteration` on the step after the
first pop, so when any non-listed trace exists only the first one is removed
and the method raises instead of returning. -/
def set_secondary_components (w : Window) (sc : String) :
    Window × Except Err (List MLTrace) :=
  if sc.length ≠ 2 then
    (w, .error (.valueError "Must provide 2 secondary_components. E.g., 12, NE."))
  else if sc.data.getD 0 ' ' = sc.data.getD 1 ' ' then
    (w, .error (.valueError "Elements of secondary_components must be unique characters"))
  else
    let component_list := sc ++ w.stats.primary_component
    let stats' := { w.stats with secondary_components := some sc }
    if w.traces.all (fun kv => strIn kv.1 component_list) then
      ({ w with stats := stats' }, .ok [])
    else
      ({ stats := stats',
         traces := w.traces.eraseP (fun kv => ! strIn kv.1 component_list) },
       .error (.runtimeError "dictionary changed size during iteration"))

/-- `Window.zeros_fill(fv_checks)`: require the primary trace and a passing
primary check, then replace every failing non-primary entry of `fv_checks`
with a zero-data zero-fold copy of the primary relabelled to that component. -/
def zeros_fill (w : Window) (fv_checks : List (String × Bool)) :
    Window × Option Err :=
  match List.lookup w.stats.primary_component w.traces with
  | none =>
    (w, some (.keyError ("primary_component " ++ w.stats.primary_component ++
        " is not a key in this Window.")))
  | some prim =>
    match List.lookup w.stats.primary_component fv_checks with
    | none => (w, some (.keyError w.stats.primary_component))
    | some false => (w, some (.valueError "primary component has insufficient data"))
    | some true =>
      let tr0 := prim.to_zero "both"
      let traces' := fv_checks.foldl (fun ts kv =>
        if kv.1 ≠ w.stats.primary_component ∧ kv.2 = false then
          dictUpdate ts kv.1 (tr0.set_comp kv.1)
        else ts) w.traces
      ({ w with traces := traces' }, none)

/-- `Window.clone_primary_fill(fv_checks)`: require the primary trace and a
passing primary check, then replace every failing non-primary entry of
`fv_checks` with a zero-fold copy of the primary (data retained) relabelled to
that component. -/
def clone_primary_fill (w : Window) (fv_checks : List (String × Bool)) :
    Window × Option Err :=
  match List.lookup w.stats.primary_component w.traces with
  | none =>
    (w, some (.keyError ("primary_component " ++ w.stats.primary_component ++
        " is not a key in this Window.")))
  | some prim =>
    match List.lookup w.stats.primary_component fv_checks with
    | none => (w, some (.keyError w.stats.primary_component))
    | some false => (w, some (.valueError "primary component trace has insufficient data"))
    | some true =>
      let tr0 := prim.to_zero "fold"
      let traces' := fv_checks.foldl (fun ts kv =>
        if kv.1 ≠ w.stats.primary_component ∧ kv.2 = false then
          dictUpdate ts kv.1 (tr0.set_comp kv.1)
        else ts) w.traces
      ({ w with traces := traces' }, none)

/-- `Window.clone_secondary_fill(fv_checks)`: after the same primary checks,
require exactly two distinct designated secondary components; if all checks
pass do nothing, if both secondaries fail fall back to `clone_primary_fill`,
and if exactly one passes clone it (fold zeroed, relabelled) into the slot of
the failing one. -/
def clone_secondary_fill (w : Window) (fv_checks : List (String × Bool)) :
    Window × Option Err :=
  match List.lookup w.stats.primary_component w.traces with
  | none =>
    (w, some (.keyError ("primary_component " ++ w.stats.primary_component ++
        " is not a key in this Window.")))
  | some _ =>
    match List.lookup w.stats.primary_component fv_checks with
    | none => (w, some (.keyError w.stats.primary_component))
    | some false => (w, some (.valueError "primary component trace has insufficient data"))
    | some true =>
      match w.stats.get_unique_secondary_components with
      | [s0, s1] =>
        if fv_checks.all (fun kv => kv.2) then (w, none)
        else
          match List.lookup s0 fv_checks, List.lookup s1 fv_checks with
          | some f0, some f1 =>
            if ¬ (f0 || f1) then w.clone_primary_fill fv_checks
            else if f0 ≠ f1 then
              if f0 then
                match List.lookup s0 w.traces with
                | none => (w, some (.keyError s0))
                | some t0 =>
                  ({ w with traces :=
                      dictUpdate w.traces s1 ((t0.to_zero "fold").set_comp s1) }, none)
              else
                match List.lookup s1 w.traces with
                | none => (w, some (.keyError s1))
                | some t1 =>
                  ({ w with traces :=
                      dictUpdate w.traces s0 ((t1.to_zero "fold").set_comp s0) }, none)
            else (w, some (.valueError "Logic error - should not get here"))
          | none, _ => (w, some (.keyError s0))
          | some _, none => (w, some (.keyError s1))
      | _ =>
        (w, some (.notImplementedError
            "Current version of this rule only works with 3-component data"))

/-- Loop of `Window.apply_fill_rule` that marks every character of the
component list absent from the check results as failing
(`fv_checks.update(⦃comp: False⦄)`). -/
def mark_absent_components (checks : List (String × Bool))
    (component_list : String) : List (String × Bool) :=
  component_list.data.foldl (fun acc c =>
    if acc.any (fun kv => kv.1 == String.singleton c) then acc
    else acc ++ [(String.singleton c, false)]) checks

/-- `Window.apply_fill_rule(secondary_components, rule, tolerance)`: validate
the rule name, designate the secondary components (removing non-listed
traces), run the valid-fraction checks with absent designated components
marked failing, and either return the popped traces directly (all checks
pass) or first dispatch to the selected fill rule. -/
def apply_fill_rule (w : Window) (sc : String) (rule : String)
    (tolerance : ℚ) : Window × Except Err (List MLTrace) :=
  if ¬ (rule = "zeros_fill" ∨ rule = "clone_primary_fill" ∨
        rule = "clone_secondary_fill") then
    (w, .error (.valueError ("rule " ++ rule ++ " not supported.")))
  else
    match w.set_secondary_components sc with
    | (w1, .error e) => (w1, .error e)
    | (w1, .ok popped) =>
      let component_list :=
        w1.stats.primary_component ++ w1.stats.secondary_components.getD ""
      match w1.run_fvalid_checks tolerance with
      | .error e => (w1, .error e)
      | .ok checks0 =>
        let fv_checks := mark_absent_components checks0 component_list
        if fv_checks.all (fun kv => kv.2) then (w1, .ok popped)
        else
          let step :=
            if rule = "zeros_fill" then w1.zeros_fill fv_checks
            else if rule = "clone_primary_fill" then w1.clone_primary_fill fv_checks
            else w1.clone_secondary_fill fv_checks
          match step with
          | (w2, some e) => (w2, .error e)
          | (w2, none) => (w2, .ok popped)

end Window

/-!  ### Tensor export (src/PULSE/data/window.py, ready_to_burn / to_npy_tensor)  -/

/-- The inference-model descriptor consumed from the external seisbench
collaborator: the model name, its required component order (a string iterated
character-wise) and its required input sample count. -/
structure WaveformModel where
  name : String
  component_order : String
  in_samples : ℕ
  deriving Repr, DecidableEq

/-- Python equality between a concrete time and an optional target
(`x == None` is False). -/
def timeEqTarget (t : ℚ) (target : Option ℚ) : Bool :=
  match target with
  | none => false
  | some v => t == v

namespace Window

/-- `Window.ready_to_burn(model)`: reject the `WaveformModel` base class, then
report readiness: no masked data, every trace at the target starttime, every
trace with the model input sample count, every held key occurring in the model
component order, every trace at the target sampling rate. -/
def ready_to_burn (w : Window) (model : WaveformModel) : Except Err Bool :=
  if model.name = "WaveformModel" then
    .error (.valueError
      "WaveformModel baseclass objects do not provide a viable prediction method - use a child class thereof")
  else if w.traces.any (fun kv => kv.2.masked) then .ok false
  else if ¬ w.traces.all
      (fun kv => timeEqTarget kv.2.stats.starttime w.stats.target_starttime) then
    .ok false
  else if ¬ w.traces.all (fun kv => kv.2.stats.npts == model.in_samples) then
    .ok false
  else if ¬ w.traces.all (fun kv => strIn kv.1 model.component_order) then
    .ok false
  else if ¬ w.traces.all (fun kv =>
      match w.stats.target_sampling_rate with
      | none => false
      | some sr => kv.2.stats.sampling_rate == sr) then
    .ok false
  else .ok true

/-- `Window.to_npy_tensor(model)`: require `ready_to_burn`, then stack the
data vector of each component of the model component order into a row of the
output array; a component order entry with no held trace raises the
DictStream string-lookup KeyError. -/
def to_npy_tensor (w : Window) (model : WaveformModel) :
    Except Err (List (List ℚ)) :=
  match w.ready_to_burn model with
  | .error e => .error e
  | .ok false =>
    .error (.valueError "This Window is not ready for conversion to a torch.Tensor")
  | .ok true =>
    model.component_order.data.mapM (fun c =>
      match List.lookup (String.singleton c) w.traces with
      | none =>
        .error (.keyError ("index " ++ String.singleton c ++
          " is not a key in this DictStream traces attribute"))
      | some tr => .ok tr.data)

end Window

/-!  ### Wyrm pulse (src/ayahos/wyrms/wyrm.py)

`Wyrm.pulse` drives the polymorphic hook methods; the stage-specific unit
transformation `_unit_process` is a parameter `proc` of the embedding (every
stage overrides it).  The base class body of `Wyrm._unit_process` is
`unit_out = obj` where no name `obj` is in scope, so calling it raises a
`NameError`; it is embedded separately as `wyrm_base_unit_process`.
-/

/-- Result of one `pulse` call: the post-state of the input deque (None stays
None), the output deque contents after the call (the method returns this very
collection, aliased, together with the processed-unit count), and the
exception that aborted the call, if any. -/
structure PulseResult (α β : Type) where
  input : Option (List α)
  output : List β
  nproc : ℕ
  err : Option Err := none
  deriving Repr, DecidableEq

/-- `Wyrm._measure_input(input)`: `max_pulse_size` for None, else the length. -/
def measure_input {α : Type} (max_pulse_size : ℕ) : Option (List α) → ℕ
  | none => max_pulse_size
  | some l => l.length

/-- `Wyrm._run_this_iteration(input, input_measure, iterno)`: the input must be
a deque, non-empty, and `iterno + 1` must not exceed the measured length. -/
def run_this_iteration {α : Type} (input : Option (List α))
    (input_measure iterno : ℕ) : Bool :=
  match input with
  | none => false
  | some l => decide (l.length > 0) && decide (iterno + 1 ≤ input_measure)

/-- Iterations of `Wyrm.pulse`: at each step check `_run_this_iteration`
(break on False), pop the unit input from the left of the deque, run the unit
process (an exception aborts the whole call), append the unit output
(`_capture_unit_output`) and consult `_run_next_iteration` (constant True in
the base class, so no break there). -/
def pulse_loop {α β : Type} (proc : α → Except Err β) (input_measure : ℕ) :
    ℕ → ℕ → Option (List α) → List β → ℕ → PulseResult α β
  | 0, _, inp, out, n => ⟨inp, out, n, none⟩
  | fuel + 1, iterno, inp, out, n =>
    if run_this_iteration inp input_measure iterno = false then ⟨inp, out, n, none⟩
    else
      match inp with
      | none => ⟨inp, out, n, some (.typeError "input object was incorrect type")⟩
      | some [] => ⟨inp, out, n, some (.indexError "pop from an empty deque")⟩
      | some (x :: rest) =>
        match proc x with
        | .error e => ⟨some rest, out, n, some e⟩
        | .ok y => pulse_loop proc input_measure fuel (iterno + 1) (some rest)
            (out ++ [y]) (n + 1)

/-- `Wyrm.pulse(input)`: measure the input, run up to `max_pulse_size`
iterations, and return (an alias of) the output deque with the processed-unit
count.  `output0` is the content of `self.output` before the call. -/
def pulse {α β : Type} (proc : α → Except Err β) (max_pulse_size : ℕ)
    (output0 : List β) (input : Option (List α)) : PulseResult α β :=
  pulse_loop proc (measure_input max_pulse_size input) max_pulse_size 0 input
    output0 0

/-- Base-class `Wyrm._unit_process(unit_input)`: the body reads the undefined
name `obj` (its docstring says it returns `unit_input`), so every call raises
`NameError`. -/
def wyrm_base_unit_process {α : Type} : α → Except Err α :=
  fun _ => .error (.nameError "name obj is not defined")

/-!  ### Spec-worded definitions for the refinement claims

These definitions follow the words of the spec and claims (not the source);
they exist only to be compared with the source-derived definitions above.
-/

/-- Spec wording: the shortest length among the values `x :: xs`. -/
def shortestValueLength (x : String) (xs : List String) : ℕ :=
  xs.foldl (fun m s => min m s.length) x.length

/-- Spec wording: the longest length among the values `x :: xs`. -/
def longestValueLength (x : String) (xs : List String) : ℕ :=
  xs.foldl (fun m s => max m s.length) x.length

/-- Claim C5 wording for one field token: `*` for an empty value set, the
value verbatim for a singleton, otherwise character-by-character comparison
up to the SHORTEST value length, `?` at disagreeing positions, a trailing `*`
when value lengths differ, collapsed to `*` when every compared position
became `?`. -/
def claimedToken (v : List String) : String :=
  match v with
  | [] => "*"
  | [x] => x
  | x :: xs =>
    let minlen := shortestValueLength x xs
    let maxlen := longestValueLength x xs
    let cs := (List.range minlen).map (fun i =>
      if (x :: xs).all (fun s => charAt s i == charAt x i) then charAt x i else '?')
    if cs.all (fun c => c == '?') then "*"
    else if minlen ≠ maxlen then String.mk cs ++ "*"
    else String.mk cs

/-- Amended C5 wording: as `claimedToken`, but the compared length is capped
at the source sentinel 999, and the trailing `*` appears whenever the longest
length differs from that (capped) compared length. -/
def claimedTokenCapped (v : List String) : String :=
  match v with
  | [] => "*"
  | [x] => x
  | x :: xs =>
    let minlen := min 999 (shortestValueLength x xs)
    let maxlen := longestValueLength x xs
    let cs := (List.range minlen).map (fun i =>
      if (x :: xs).all (fun s => charAt s i == charAt x i) then charAt x i else '?')
    if cs.all (fun c => c == '?') then "*"
    else if minlen ≠ maxlen then String.mk cs ++ "*"
    else String.mk cs

/-- Claim C5 wording for the six per-field tokens, in field order. -/
def claimedCommonIdElements (traces : List (String × MLTrace)) : List String :=
  [ claimedToken (uniqueField MLStats.network traces),
    claimedToken (uniqueField MLStats.station traces),
    claimedToken (uniqueField MLStats.location traces),
    claimedToken (uniqueField MLStats.channel traces),
    claimedToken (uniqueField MLStats.model traces),
    claimedToken (uniqueField MLStats.weight traces) ]

/-- Claim C5 wording for the whole identity: the six claimed tokens joined
with dots in field order. -/
def claimedCommonId (traces : List (String × MLTrace)) : String :=
  String.intercalate "." (claimedCommonIdElements traces)

/-- Amended C5 wording for the six per-field tokens, compared length capped
at 999. -/
def claimedCommonIdElementsCapped (traces : List (String × MLTrace)) :
    List String :=
  [ claimedTokenCapped (uniqueField MLStats.network traces),
    claimedTokenCapped (uniqueField MLStats.station traces),
    claimedTokenCapped (uniqueField MLStats.location traces),
    claimedTokenCapped (uniqueField MLStats.channel traces),
    claimedTokenCapped (uniqueField MLStats.model traces),
    claimedTokenCapped (uniqueField MLStats.weight traces) ]

/-- Amended C5 wording for the whole identity: the six capped claimed tokens
joined with dots in field order. -/
def claimedCommonIdCapped (traces : List (String × MLTrace)) : String :=
  String.intercalate "." (claimedCommonIdElementsCapped traces)

/-!  ### Concrete inputs used by counterexamples, code-bug evaluations and
witnesses  -/

/-- A Segment with component Z. -/
def segZ : MLTrace := { stats := { channel := "EHZ" }, data := [1, 2], fold := [1, 1] }

/-- A Segment with component N. -/
def segN : MLTrace := { stats := { channel := "EHN" }, data := [3, 4], fold := [1, 1] }

/-- A Segment with component E. -/
def segE : MLTrace := { stats := { channel := "EHE" }, data := [5, 6], fold := [1, 1] }

/-- A Segment with component Q, outside the designated component set. -/
def segQ : MLTrace := { stats := { channel := "EHQ" }, data := [7, 8], fold := [1, 1] }

/-- A Window holding Z, N, E and the extra component Q. -/
def cexWindowC1 : Window :=
  { traces := [("Z", segZ), ("N", segN), ("E", segE), ("Q", segQ)] }

/-- A Window with the primary component Z absent and the extra component Q. -/
def cexWindowC2 : Window :=
  { traces := [("N", segN), ("E", segE), ("Q", segQ)] }

/-- A Window with the primary component Z absent and no extra components. -/
def witWindowC2 : Window :=
  { traces := [("N", segN), ("E", segE)] }

/-- A Window holding only component Z (used to query an absent component). -/
def cexWindowC3 : Window :=
  { traces := [("Z", segZ)] }

/-- A trace aligned to the C7 target values. -/
def segRTB : MLTrace :=
  { stats := { channel := "EHZ", starttime := 0, sampling_rate := 100, npts := 4 },
    data := [1, 2, 3, 4], fold := [1, 1, 1, 1] }

/-- A Window aligned to its targets but holding only component Z of the three
the model requires. -/
def cexWindowC7 : Window :=
  { stats := { target_starttime := some 0, target_sampling_rate := some 100,
               target_npts := some 4 },
    traces := [("Z", segRTB)] }

/-- A model descriptor requiring components Z, N, E and 4 samples. -/
def modelC7 : WaveformModel :=
  { name := "EQTransformer", component_order := "ZNE", in_samples := 4 }

/-- Instantiation of the external Segment merge for contexts where the merge
branch is never taken: keep the holder. -/
def mergeKeep : MLTrace → MLTrace → MLTrace := fun old _ => old

/-- A trace ending at time 10. -/
def segA8 : MLTrace :=
  { stats := { network := "UW", station := "AAA", channel := "EHZ",
               starttime := 0, sampling_rate := 1, npts := 11 } }

/-- A trace ending at time 20. -/
def segB8 : MLTrace :=
  { stats := { network := "UW", station := "BBB", channel := "EHZ",
               starttime := 0, sampling_rate := 1, npts := 21 } }

/-- A buffer built by inserting `segA8` then `segB8` under the full-id scheme. -/
def cexBufferC8 : DictStream :=
  DictStream._add_trace mergeKeep
    (DictStream._add_trace mergeKeep {} segA8 .id) segB8 .id

/-- A station value of length 1000: 999 copies of `a` followed by `b`. -/
def longStationA : String := String.mk (List.replicate 999 'a' ++ ['b'])

/-- A station value of length 1001: 999 copies of `a` followed by `c`, `d`. -/
def longStationB : String := String.mk (List.replicate 999 'a' ++ ['c', 'd'])

/-- A trace carrying `longStationA`. -/
def segLongA : MLTrace :=
  { stats := { network := "UW", station := longStationA, channel := "EHZ" } }

/-- A trace carrying `longStationB`. -/
def segLongB : MLTrace :=
  { stats := { network := "UW", station := longStationB, channel := "EHZ" } }

/-- A buffer whose two traces differ in the station field beyond the 999-th
character. -/
def cexBufferC5 : DictStream :=
  { traces := [("k1", segLongA), ("k2", segLongB)] }

/-- Trace BW.RJOB.--.EHZ. -/
def segBWZ : MLTrace :=
  { stats := { network := "BW", station := "RJOB", location := "--", channel := "EHZ" } }

/-- Trace BW.RJOB.--.EHN. -/
def segBWN : MLTrace :=
  { stats := { network := "BW", station := "RJOB", location := "--", channel := "EHN" } }

/-- Trace BW.RJOB.--.EHE. -/
def segBWE : MLTrace :=
  { stats := { network := "BW", station := "RJOB", location := "--", channel := "EHE" } }

/-- A buffer holding exactly the three BW.RJOB components. -/
def cexBufferC6 : DictStream :=
  { traces := [("Z", segBWZ), ("N", segBWN), ("E", segBWE)] }

/-!  ### Theorems  -/

/-- C1: `apply_fill_rule` on a Window holding the non-designated component Q
does not remove-and-return the non-designated Segments as claimed: the
de-indexing loop of `set_secondary_components` pops entries of `self.traces`
while iterating over `self.traces.keys()`, so the call raises RuntimeError
after removing only the first non-designated entry, and nothing is returned. -/
theorem c1_apply_fill_rule_crashes_on_extra_component :
    (cexWindowC1.apply_fill_rule "NE" "clone_primary_fill" (1 / 1000)).2 =
      .error (.runtimeError "dictionary changed size during iteration") ∧
    dictKeys (cexWindowC1.apply_fill_rule "NE" "clone_primary_fill" (1 / 1000)).1.traces =
      ["Z", "N", "E"] := by
  decide

/-- C2 counterexample: on a Window with the primary component absent AND a
non-designated component held, `apply_fill_rule` raises RuntimeError (not the
missing-primary KeyError) and the held mapping is mutated before the raise. -/
theorem c2_counterexample_runtime_error_and_mutation :
    (cexWindowC2.apply_fill_rule "NE" "zeros_fill" 0).2 =
      .error (.runtimeError "dictionary changed size during iteration") ∧
    (cexWindowC2.apply_fill_rule "NE" "zeros_fill" 0).1.traces ≠
      cexWindowC2.traces := by
  decide

/-- C3 counterexample: `check_fvalid` on an absent component raises KeyError
instead of returning 0 / reporting a failure. -/
theorem c3_counterexample_check_fvalid_raises :
    cexWindowC3.check_fvalid "Q" 0 = .error (.keyError "Q is not present.") := by
  decide

/-- C4: pulse on the base Wyrm stage with `max_pulse_size = 1` and a length-2
input does not complete processing one unit as claimed: `Wyrm._unit_process`
reads the undefined name `obj`, so the call removes one unit from the input
and then aborts with NameError, processing zero units and appending nothing. -/
theorem c4_pulse_base_stage_raises_name_error :
    pulse (wyrm_base_unit_process : ℕ → Except Err ℕ) 1 [] (some [7, 8]) =
      ⟨some [8], [], 0, some (.nameError "name obj is not defined")⟩ := by
  decide

/-- C6 counterexample: a buffer holding EHZ, EHN, EHE with identical other
fields yields the verbatim-field identity `BW.RJOB.--.EH?..`, not the claimed
`*.*.*.EH?..`. -/
theorem c6_counterexample_verbatim_tokens :
    get_common_id cexBufferC6.traces = "BW.RJOB.--.EH?.." ∧
    get_common_id cexBufferC6.traces ≠ "*.*.*.EH?.." := by
  decide

/-- C7: a Window holding only component Z of the required Z, N, E passes
`ready_to_burn` (the code checks that held keys occur in the model component
order, not that required components are held, contradicting its own comment)
and the export then raises KeyError instead of the not-ready error. -/
theorem c7_ready_to_burn_ignores_missing_required_component :
    cexWindowC7.ready_to_burn modelC7 = .ok true ∧
    cexWindowC7.to_npy_tensor modelC7 =
      .error (.keyError "index N is not a key in this DictStream traces attribute") := by
  decide

/-- C8 counterexample: after `fnpop` removes the trace with the largest
endtime, the source summary `max_endtime` keeps the stale value 20 while the
endtimes of the held traces are exactly [10]. -/
theorem c8_counterexample_stale_summary_after_fnpop :
    (DictStream.fnpop mergeKeep cexBufferC8 "UW.BBB..EHZ").1.traces.map
        (fun kv => kv.2.stats.endtime) = [10] ∧
    (DictStream.fnpop mergeKeep cexBufferC8 "UW.BBB..EHZ").1.stats.max_endtime =
      some 20 ∧
    (some (20 : ℚ)) ≠ (some (10 : ℚ)) := by
  refine ⟨by with_unfolding_all rfl, by with_unfolding_all rfl, by norm_num⟩

/-- Helper: a key outside the key list of an association list has no binding. -/
theorem list_lookup_eq_none {α : Type} (k : String) (l : List (String × α))
    (h : k ∉ l.map Prod.fst) : List.lookup k l = none := by
  induction l with
  | nil => rfl
  | cons kv t ih =>
    obtain ⟨k1, v1⟩ := kv
    simp only [List.map_cons, List.mem_cons, not_or] at h
    simp only [List.lookup, beq_eq_false_iff_ne.mpr h.1]
    exact ih h.2

/-- Helper: a key of an association list has a binding. -/
theorem list_lookup_of_mem_keys {α : Type} (k : String) (l : List (String × α))
    (h : k ∈ l.map Prod.fst) : ∃ v, List.lookup k l = some v := by
  induction l with
  | nil => simp at h
  | cons kv t ih =>
    obtain ⟨k1, v1⟩ := kv
    by_cases hk : k = k1
    · exact ⟨v1, by simp [List.lookup, hk]⟩
    · simp only [List.map_cons, List.mem_cons] at h
      obtain ⟨v, hv⟩ := ih (h.resolve_left hk)
      exact ⟨v, by simp [List.lookup, beq_eq_false_iff_ne.mpr hk, hv]⟩

/-- Helper: each completed or aborted pulse loop only appends to the output,
one element per processed unit. -/
theorem pulse_loop_appends {α β : Type} (proc : α → Except Err β) (m : ℕ) :
    ∀ (fuel iterno : ℕ) (inp : Option (List α)) (out : List β) (n : ℕ),
      ∃ news : List β,
        (pulse_loop proc m fuel iterno inp out n).output = out ++ news ∧
        (pulse_loop proc m fuel iterno inp out n).nproc = n + news.length := by
  intro fuel
  induction fuel with
  | zero =>
    intro iterno inp out n
    exact ⟨[], by simp [pulse_loop], by simp [pulse_loop]⟩
  | succ k ih =>
    intro iterno inp out n
    by_cases hrun : run_this_iteration inp m iterno = false
    · exact ⟨[], by simp [pulse_loop, hrun], by simp [pulse_loop, hrun]⟩
    · match inp, hrun with
      | none, hrun => exact absurd rfl hrun
      | some [], hrun => exact absurd (by simp [run_this_iteration]) hrun
      | some (x :: rest), hrun =>
        cases hp : proc x with
        | error e =>
          exact ⟨[], by simp [pulse_loop, hrun, hp], by simp [pulse_loop, hrun, hp]⟩
        | ok y =>
          obtain ⟨news, h1, h2⟩ := ih (iterno + 1) (some rest) (out ++ [y]) (n + 1)
          have h3 : pulse_loop proc m (k + 1) iterno (some (x :: rest)) out n =
              pulse_loop proc m k (iterno + 1) (some rest) (out ++ [y]) (n + 1) := by
            simp [pulse_loop, hrun, hp]
          refine ⟨y :: news, ?_, ?_⟩
          · rw [h3, h1]; simp
          · rw [h3, h2]; simp; omega

/-- C9: the derived full id is the NSLC code alone when both model and weight
equal their empty-string defaults, and otherwise the NSLC code with
`.model.weight` appended, a defaulted field contributing an empty token. -/
theorem c9_full_id_suffix_rule (s : MLStats) :
    s.get_id =
      if s.model = defaultModel ∧ s.weight = defaultWeight then s.get_nslc
      else s.get_nslc ++ "." ++ s.model ++ "." ++ s.weight := by
  unfold MLStats.get_id
  by_cases hm : s.model = "" <;> by_cases hw : s.weight = "" <;>
    simp [defaultModel, defaultWeight, hm, hw]

/-- C10: for every stage (every unit transformation `proc`), `pulse` returns
the stage output collection itself (in this embedding the returned `output`
field is the state output after the call), with the previous contents kept in
order as a prefix and exactly one appended element per processed unit, so
outputs accumulate across successive pulse calls. -/
theorem c10_pulse_output_accumulates {α β : Type} (proc : α → Except Err β)
    (max_pulse_size : ℕ) (output0 : List β) (input : Option (List α)) :
    ∃ news : List β,
      (pulse proc max_pulse_size output0 input).output = output0 ++ news ∧
      (pulse proc max_pulse_size output0 input).nproc = news.length := by
  obtain ⟨news, h1, h2⟩ :=
    pulse_loop_appends proc (measure_input max_pulse_size input) max_pulse_size 0
      input output0 0
  exact ⟨news, h1, by simpa using h2⟩

/-- C3 amended: for every Window, a component code that is not held makes
`check_fvalid` raise the KeyError naming the component (rather than returning
0); absence is reported as an error, not as a failing completeness result. -/
theorem c3_amended_check_fvalid_keyerror (w : Window) (key : String) (tol : ℚ)
    (h0 : 0 ≤ tol) (h1 : tol < 1) (habs : key ∉ w.traces.map Prod.fst) :
    w.check_fvalid key tol = .error (.keyError (key ++ " is not present.")) := by
  unfold Window.check_fvalid
  rw [if_neg (not_not_intro ⟨h0, h1⟩), list_lookup_eq_none key w.traces habs]

/-- C3 witness: the amended statement evaluated on a concrete Window and the
absent component X. -/
theorem c3_amended_witness :
    cexWindowC3.check_fvalid "X" 0 = .error (.keyError "X is not present.") :=
  c3_amended_check_fvalid_keyerror cexWindowC3 "X" 0 (by norm_num) (by norm_num)
    (by decide)

/-- Helper: the running-minimum conditional keeps the smaller of the old value
and the new time. -/
theorem updMin_eq (cur : Option ℚ) (t : ℚ) :
    DictStreamStats.updMin cur t =
      some (match cur with | none => t | some v => min v t) := by
  cases cur with
  | none => rfl
  | some v =>
    by_cases h : v > t
    · simp [DictStreamStats.updMin, h, min_eq_right h.le]
    · simp [DictStreamStats.updMin, h, min_eq_left (not_lt.mp h)]

/-- Helper: the running-maximum conditional keeps the larger of the old value
and the new time. -/
theorem updMax_eq (cur : Option ℚ) (t : ℚ) :
    DictStreamStats.updMax cur t =
      some (match cur with | none => t | some v => max v t) := by
  cases cur with
  | none => rfl
  | some v =>
    by_cases h : v < t
    · simp [DictStreamStats.updMax, h, max_eq_right h.le]
    · simp [DictStreamStats.updMax, h, max_eq_left (not_lt.mp h)]

/-- Helper: the fnpop move loop never touches the stats of the source stream. -/
theorem fnpop_fold_stats (merge : MLTrace → MLTrace → MLTrace)
    (hits : List String) :
    ∀ acc : DictStream × DictStream,
      (hits.foldl (fun (acc : DictStream × DictStream) (m : String) =>
        match List.lookup m acc.1.traces with
        | none => acc
        | some tr =>
          ({ acc.1 with traces := acc.1.traces.eraseP (fun kv => kv.1 == m) },
           acc.2._add_trace merge tr acc.2.default_key_attr)) acc).1.stats =
      acc.1.stats := by
  induction hits with
  | nil => intro acc; rfl
  | cons m t ih =>
    intro acc
    simp only [List.foldl]
    rw [ih]
    cases List.lookup m acc.1.traces <;> rfl

/-- C8 amended: the four summary time fields behave as a running envelope:
an insert (`_add_trace`) replaces each field by the min/max of its old value
and the inserted trace (a `None` field is overwritten), and a
pattern-filtered pop (`fnpop`) leaves the source stats untouched — so after
removals the fields bound, but need not equal, the extremes of the currently
held Segments. -/
theorem c8_amended_envelope_semantics :
    (∀ (merge : MLTrace → MLTrace → MLTrace) (ds : DictStream) (tr : MLTrace)
        (ka : KeyAttr),
      (ds._add_trace merge tr ka).stats.min_starttime =
        some (match ds.stats.min_starttime with
              | none => tr.stats.starttime
              | some v => min v tr.stats.starttime) ∧
      (ds._add_trace merge tr ka).stats.max_starttime =
        some (match ds.stats.max_starttime with
              | none => tr.stats.starttime
              | some v => max v tr.stats.starttime) ∧
      (ds._add_trace merge tr ka).stats.min_endtime =
        some (match ds.stats.min_endtime with
              | none => tr.stats.endtime
              | some v => min v tr.stats.endtime) ∧
      (ds._add_trace merge tr ka).stats.max_endtime =
        some (match ds.stats.max_endtime with
              | none => tr.stats.endtime
              | some v => max v tr.stats.endtime)) ∧
    (∀ (merge : MLTrace → MLTrace → MLTrace) (ds : DictStream) (pat : String),
      (DictStream.fnpop merge ds pat).1.stats = ds.stats) := by
  constructor
  · intro merge ds tr ka
    refine ⟨?_, ?_, ?_, ?_⟩ <;>
      simp [DictStream._add_trace, DictStreamStats.update_time_range,
        updMin_eq, updMax_eq]
  · intro merge ds pat
    simp only [DictStream.fnpop]
    rw [fnpop_fold_stats]

/-- Helper: the minlen loop body is a running minimum. -/
theorem foldl_if_lt_eq_min (l : List String) (a : ℕ) :
    l.foldl (fun m s => if s.length < m then s.length else m) a =
    l.foldl (fun m s => min m s.length) a := by
  have h : ∀ (m : ℕ) (s : String),
      (if s.length < m then s.length else m) = min m s.length := by
    intro m s; split <;> omega
  simp only [h]

/-- Helper: the maxlen loop body is a running maximum. -/
theorem foldl_if_gt_eq_max (l : List String) (a : ℕ) :
    l.foldl (fun m s => if s.length > m then s.length else m) a =
    l.foldl (fun m s => max m s.length) a := by
  have h : ∀ (m : ℕ) (s : String),
      (if s.length > m then s.length else m) = max m s.length := by
    intro m s; split <;> omega
  simp only [h]

/-- Helper: a running minimum distributes over its initial value. -/
theorem foldl_min_init (xs : List String) :
    ∀ a b : ℕ, xs.foldl (fun m s => min m s.length) (min a b) =
      min a (xs.foldl (fun m s => min m s.length) b) := by
  induction xs with
  | nil => intro a b; rfl
  | cons s t ih =>
    intro a b
    simp only [List.foldl]
    rw [min_assoc, ih]

/-- Helper: the source minlen loop computes the shortest value length capped
at the sentinel 999. -/
theorem codeMinLen_eq (x : String) (xs : List String) :
    codeMinLen (x :: xs) = min 999 (shortestValueLength x xs) := by
  unfold codeMinLen shortestValueLength
  rw [foldl_if_lt_eq_min]
  simp only [List.foldl]
  rw [show (min 999 x.length) = min 999 x.length from rfl, foldl_min_init]

/-- Helper: the source maxlen loop computes the longest value length. -/
theorem codeMaxLen_eq (x : String) (xs : List String) :
    codeMaxLen (x :: xs) = longestValueLength x xs := by
  unfold codeMaxLen longestValueLength
  rw [foldl_if_gt_eq_max]
  simp only [List.foldl, Nat.zero_max]

/-- Helper: the source per-field token equals the capped spec-worded token. -/
theorem commonToken_eq_capped (v : List String) :
    commonToken v = claimedTokenCapped v := by
  match v with
  | [] => rfl
  | [x] => rfl
  | x :: y :: t =>
    simp only [commonToken, claimedTokenCapped, codeMinLen_eq, codeMaxLen_eq]

/-- C5 amended: for every buffer, each of the six common-identity tokens is
computed exactly as the claim states except that the character comparison
stops at min(999, shortest value length) — 999 being a sentinel in the
source — and the trailing `*` appears whenever the longest length differs
from that compared length; the six tokens are joined with dots in field
order. -/
theorem c5_amended_common_id_capped (ds : DictStream) :
    get_common_id_elements ds.traces = claimedCommonIdElementsCapped ds.traces ∧
    get_common_id ds.traces = claimedCommonIdCapped ds.traces := by
  have h : get_common_id_elements ds.traces = claimedCommonIdElementsCapped ds.traces := by
    simp [get_common_id_elements, claimedCommonIdElementsCapped, commonToken_eq_capped]
  exact ⟨h, by simp [get_common_id, claimedCommonId, claimedCommonIdCapped, h]⟩

/-- Helper: indexing into a replicated list inside its extent. -/
theorem getD_replicate_char (a d : Char) {n i : ℕ} (h : i < n) :
    (List.replicate n a).getD i d = a := by
  rw [List.getD_eq_getElem?_getD, List.getElem?_replicate, if_pos h]
  rfl

set_option maxRecDepth 8000 in
/-- Helper: the long station values have lengths 1000 and 1001. -/
theorem longStation_lengths :
    longStationA.length = 1000 ∧ longStationB.length = 1001 := by
  constructor <;> with_unfolding_all rfl

/-- Helper: the first 999 characters of the first long station are `a`. -/
theorem charAt_longA_lt {i : ℕ} (h : i < 999) : charAt longStationA i = 'a' := by
  show (List.replicate 999 'a' ++ ['b']).getD i ' ' = 'a'
  rw [List.getD_append _ _ _ _ (by rw [List.length_replicate]; exact h)]
  exact getD_replicate_char _ _ h

/-- Helper: the first 999 characters of the second long station are `a`. -/
theorem charAt_longB_lt {i : ℕ} (h : i < 999) : charAt longStationB i = 'a' := by
  show (List.replicate 999 'a' ++ ['c', 'd']).getD i ' ' = 'a'
  rw [List.getD_append _ _ _ _ (by rw [List.length_replicate]; exact h)]
  exact getD_replicate_char _ _ h

set_option maxRecDepth 8000 in
/-- Helper: at position 999 the long stations disagree. -/
theorem charAt_longStations_999 :
    charAt longStationA 999 = 'b' ∧ charAt longStationB 999 = 'c' := by
  constructor <;> with_unfolding_all rfl

set_option maxRecDepth 8000 in
set_option maxHeartbeats 1000000 in
/-- Helper: the distinct station values of the C5 buffer, in order. -/
theorem uniqueField_station_c5 :
    uniqueField MLStats.station cexBufferC5.traces = [longStationA, longStationB] := by
  with_unfolding_all rfl

/-- Helper: the 999-position character scan of the two long stations is all
agreement. -/
theorem cs_code_station :
    (List.range 999).map (fun i =>
      if ([longStationA, longStationB].all
            (fun s => charAt s i == charAt longStationA i)) then
        charAt longStationA i
      else '?') = List.replicate 999 'a' := by
  refine List.eq_replicate_iff.mpr ⟨by simp, ?_⟩
  intro b hb
  simp only [List.mem_map, List.mem_range] at hb
  obtain ⟨i, hi, rfl⟩ := hb
  simp [charAt_longA_lt hi, charAt_longB_lt hi]

/-- Helper: the source station token of the C5 buffer stops comparing at the
999 sentinel and appends only the length-difference star. -/
theorem station_token_code :
    commonToken [longStationA, longStationB] =
      String.mk (List.replicate 999 'a') ++ "*" := by
  have hmin : codeMinLen [longStationA, longStationB] = 999 := by
    rw [codeMinLen_eq,
      show shortestValueLength longStationA [longStationB] =
        min longStationA.length longStationB.length from rfl,
      longStation_lengths.1, longStation_lengths.2]
    omega
  have hmax : codeMaxLen [longStationA, longStationB] = 1001 := by
    rw [codeMaxLen_eq,
      show longestValueLength longStationA [longStationB] =
        max longStationA.length longStationB.length from rfl,
      longStation_lengths.1, longStation_lengths.2]
    omega
  have hall : (List.replicate 999 'a').all (fun c => c == '?') = false := by
    rw [show (999 : ℕ) = 998 + 1 from rfl, List.replicate_succ, List.all_cons,
      show ('a' == '?') = false from rfl, Bool.false_and]
  simp only [commonToken, hmin, hmax, cs_code_station, hall,
    Bool.false_eq_true, if_false]
  rw [if_pos (by norm_num)]

/-- Helper: the claimed station token of the C5 buffer compares through
position 999 and records the disagreement there. -/
theorem station_token_claimed :
    claimedToken [longStationA, longStationB] =
      String.mk (List.replicate 999 'a' ++ ['?']) ++ "*" := by
  have hmin : shortestValueLength longStationA [longStationB] = 1000 := by
    rw [show shortestValueLength longStationA [longStationB] =
        min longStationA.length longStationB.length from rfl,
      longStation_lengths.1, longStation_lengths.2]
    omega
  have hmax : longestValueLength longStationA [longStationB] = 1001 := by
    rw [show longestValueLength longStationA [longStationB] =
        max longStationA.length longStationB.length from rfl,
      longStation_lengths.1, longStation_lengths.2]
    omega
  have hcs : (List.range 1000).map (fun i =>
      if ([longStationA, longStationB].all
            (fun s => charAt s i == charAt longStationA i)) then
        charAt longStationA i
      else '?') = List.replicate 999 'a' ++ ['?'] := by
    rw [show (1000 : ℕ) = 999 + 1 from rfl, List.range_succ, List.map_append,
      cs_code_station]
    have hf : (if ([longStationA, longStationB].all
          (fun s => charAt s 999 == charAt longStationA 999)) then
        charAt longStationA 999 else '?') = '?' := by
      rw [List.all_cons, List.all_cons, List.all_nil,
        charAt_longStations_999.1, charAt_longStations_999.2]
      decide
    simp only [List.map_cons, List.map_nil, hf]
  have hall : (List.replicate 999 'a' ++ ['?']).all (fun c => c == '?') = false := by
    rw [show (999 : ℕ) = 998 + 1 from rfl, List.replicate_succ, List.cons_append,
      List.all_cons, show ('a' == '?') = false from rfl, Bool.false_and]
  simp only [claimedToken, hmin, hmax, hcs, hall, Bool.false_eq_true, if_false]
  rw [if_pos (by norm_num)]

/-- C5 counterexample: on the buffer whose station values agree through 999
characters and then differ, the per-field tokens the source computes are not
the tokens the claim describes (the source stops at the 999 sentinel instead
of the shortest value length). -/
theorem c5_counterexample_sentinel_999 :
    get_common_id_elements cexBufferC5.traces ≠
      claimedCommonIdElements cexBufferC5.traces := by
  intro h
  simp only [get_common_id_elements, claimedCommonIdElements, List.cons.injEq,
    and_true] at h
  obtain ⟨-, hsta, -⟩ := h
  rw [uniqueField_station_c5, station_token_code, station_token_claimed] at hsta
  have hlen := congrArg String.length hsta
  rw [String.length_append, String.length_append,
    show (String.mk (List.replicate 999 'a')).length =
      (List.replicate 999 'a').length from rfl,
    show (String.mk (List.replicate 999 'a' ++ ['?'])).length =
      (List.replicate 999 'a' ++ ['?']).length from rfl,
    List.length_append, List.length_replicate,
    show (['?'] : List Char).length = 1 from rfl] at hlen
  have hstar : ("*" : String).length = 1 := by with_unfolding_all rfl
  rw [hstar] at hlen
  omega

/-- Helper: collecting distinct values of a constant triple yields one value. -/
theorem collectUnique_triple (a : String) : collectUnique [a, a, a] = [a] := by
  simp [collectUnique]

/-- Helper: a singleton value list gives its value as the verbatim token. -/
theorem commonToken_single (x : String) : commonToken [x] = x := rfl

/-- C6 amended: a buffer holding exactly three Segments with channels EHZ,
EHN, EHE (in that listed order) and pairwise identical other identity fields
yields the common identity network.station.location.EH?.model.weight built
from the shared verbatim values — e.g. `BW.RJOB.--.EH?..` — and not
`*.*.*.EH?..` (single-valued fields give verbatim tokens, never `*`). -/
theorem c6_amended_common_id_verbatim
    (net sta loc mo wt k1 k2 k3 : String)
    (st1 st2 st3 sr1 sr2 sr3 : ℚ) (np1 np2 np3 : ℕ)
    (d1 d2 d3 f1 f2 f3 : List ℚ) (mk1 mk2 mk3 : Bool) :
    get_common_id
      [ (k1, ⟨⟨net, sta, loc, "EHZ", mo, wt, st1, sr1, np1⟩, d1, f1, mk1⟩),
        (k2, ⟨⟨net, sta, loc, "EHN", mo, wt, st2, sr2, np2⟩, d2, f2, mk2⟩),
        (k3, ⟨⟨net, sta, loc, "EHE", mo, wt, st3, sr3, np3⟩, d3, f3, mk3⟩) ] =
      String.intercalate "." [net, sta, loc, "EH?", mo, wt] := by
  have hchan : commonToken (collectUnique ["EHZ", "EHN", "EHE"]) = "EH?" := by decide
  simp only [get_common_id, get_common_id_elements, uniqueField, List.map_cons,
    List.map_nil]
  simp only [collectUnique_triple, commonToken_single, hchan]

/-- Helper: `check_fvalid` on a held key with a valid tolerance succeeds. -/
theorem check_fvalid_ok (w : Window) (k : String) (tol : ℚ) (h0 : 0 ≤ tol)
    (h1 : tol < 1) (hk : k ∈ w.traces.map Prod.fst) :
    ∃ b, w.check_fvalid k tol = .ok b := by
  obtain ⟨tr, htr⟩ := list_lookup_of_mem_keys k w.traces hk
  unfold Window.check_fvalid
  rw [if_neg (not_not_intro ⟨h0, h1⟩), htr]
  by_cases hp : k = w.stats.primary_component
  · exact ⟨_, by simp only [hp, if_pos]; rfl⟩
  · exact ⟨_, by simp only [hp, if_neg, if_false]; rfl⟩

/-- Helper: the completeness-check traversal succeeds on any list of held
keys and reports them in order. -/
theorem mapM_checks_ok (w : Window) (tol : ℚ) (h0 : 0 ≤ tol) (h1 : tol < 1) :
    ∀ l : List (String × MLTrace),
      (∀ kv ∈ l, kv.1 ∈ w.traces.map Prod.fst) →
      ∃ res : List (String × Bool),
        l.mapM (fun kv => (w.check_fvalid kv.1 tol).map (fun b => (kv.1, b))) =
          .ok res ∧
        res.map Prod.fst = l.map Prod.fst := by
  intro l
  induction l with
  | nil => intro _; exact ⟨[], rfl, rfl⟩
  | cons kv t ih =>
    intro h
    obtain ⟨b, hb⟩ := check_fvalid_ok w kv.1 tol h0 h1 (h kv (List.mem_cons_self kv t))
    obtain ⟨res, hres, hkeys⟩ := ih (fun x hx => h x (List.mem_cons_of_mem kv hx))
    refine ⟨(kv.1, b) :: res, ?_, by simp [hkeys]⟩
    rw [List.mapM_cons, hb, hres]
    rfl

/-- Helper: `run_fvalid_checks` with a valid tolerance succeeds and reports
exactly the held keys, in order. -/
theorem run_fvalid_checks_ok (w : Window) (tol : ℚ) (h0 : 0 ≤ tol) (h1 : tol < 1) :
    ∃ checks, w.run_fvalid_checks tol = .ok checks ∧
      checks.map Prod.fst = w.traces.map Prod.fst :=
  mapM_checks_ok w tol h0 h1 w.traces
    (fun kv hkv => List.mem_map_of_mem Prod.fst hkv)

/-- Helper: an absent key makes the key-presence scan report false. -/
theorem any_key_eq_false {α : Type} (l : List (String × α)) (k : String)
    (h : k ∉ l.map Prod.fst) : l.any (fun kv => kv.1 == k) = false := by
  rw [List.any_eq_false]
  intro x hx hbe
  exact h (eq_of_beq hbe ▸ List.mem_map_of_mem Prod.fst hx)

/-- Helper: the absent-component marking loop only ever appends entries. -/
theorem foldl_mark_preserves (x : String × Bool) :
    ∀ (l : List Char) (acc : List (String × Bool)), x ∈ acc →
      x ∈ l.foldl (fun acc c =>
        if acc.any (fun kv => kv.1 == String.singleton c) then acc
        else acc ++ [(String.singleton c, false)]) acc := by
  intro l
  induction l with
  | nil => intro acc h; exact h
  | cons c t ih =>
    intro acc h
    simp only [List.foldl]
    by_cases hc : acc.any (fun kv => kv.1 == String.singleton c) = true
    · rw [if_pos hc]; exact ih acc h
    · rw [if_neg hc]; exact ih _ (List.mem_append_left _ h)

/-- Helper: when the first component-list character is not among the check
keys, the marking loop records it as failing. -/
theorem mark_absent_mem_head (checks : List (String × Bool)) (p : Char)
    (cl : String) (rest : List Char) (hdata : cl.data = p :: rest)
    (hnot : checks.any (fun kv => kv.1 == String.singleton p) = false) :
    (String.singleton p, false) ∈ Window.mark_absent_components checks cl := by
  unfold Window.mark_absent_components
  rw [hdata]
  simp only [List.foldl, hnot, Bool.false_eq_true, if_false]
  exact foldl_mark_preserves _ rest _
    (List.mem_append_right _ (List.mem_singleton_self _))

/-- Helper: a failing entry falsifies the all-pass check. -/
theorem all_snd_false_of_mem {l : List (String × Bool)} {k : String}
    (h : (k, false) ∈ l) : l.all (fun kv => kv.2) = false := by
  cases hall : l.all (fun kv => kv.2)
  · rfl
  · have := List.all_eq_true.mp hall (k, false) h
    simp at this

/-- Helper: `set_secondary_components` with a valid argument and no
non-designated traces records the designation and pops nothing. -/
theorem set_secondary_ok (w : Window) (sc : String) (h2 : sc.length = 2)
    (hd : sc.data.getD 0 ' ' ≠ sc.data.getD 1 ' ')
    (hall : w.traces.all
      (fun kv => strIn kv.1 (sc ++ w.stats.primary_component)) = true) :
    w.set_secondary_components sc =
      ({ w with stats := { w.stats with secondary_components := some sc } },
       .ok []) := by
  unfold Window.set_secondary_components
  rw [if_neg (by simp [h2]), if_neg hd, if_pos hall]

/-- Helper: zeros_fill raises the missing-primary KeyError without mutation. -/
theorem zeros_fill_missing_primary (w : Window) (checks : List (String × Bool))
    (habs : w.stats.primary_component ∉ w.traces.map Prod.fst) :
    w.zeros_fill checks = (w, some (.keyError ("primary_component " ++
      w.stats.primary_component ++ " is not a key in this Window."))) := by
  unfold Window.zeros_fill
  rw [list_lookup_eq_none _ _ habs]

/-- Helper: clone_primary_fill raises the missing-primary KeyError without
mutation. -/
theorem clone_primary_fill_missing_primary (w : Window)
    (checks : List (String × Bool))
    (habs : w.stats.primary_component ∉ w.traces.map Prod.fst) :
    w.clone_primary_fill checks = (w, some (.keyError ("primary_component " ++
      w.stats.primary_component ++ " is not a key in this Window."))) := by
  unfold Window.clone_primary_fill
  rw [list_lookup_eq_none _ _ habs]

/-- Helper: clone_secondary_fill raises the missing-primary KeyError without
mutation. -/
theorem clone_secondary_fill_missing_primary (w : Window)
    (checks : List (String × Bool))
    (habs : w.stats.primary_component ∉ w.traces.map Prod.fst) :
    w.clone_secondary_fill checks = (w, some (.keyError ("primary_component " ++
      w.stats.primary_component ++ " is not a key in this Window."))) := by
  unfold Window.clone_secondary_fill
  rw [list_lookup_eq_none _ _ habs]

/-- C2 amended: on every Window whose held component codes all occur in the
designated secondary+primary component string (so that the de-indexing loop
removes nothing and does not hit the dict-mutation RuntimeError), calling
`apply_fill_rule` with any of the three rules while the primary component is
absent raises the missing-primary KeyError and leaves the held
component-to-Segment mapping identical. -/
theorem c2_amended_missing_primary_no_mutation (w : Window) (sc rule : String)
    (tol : ℚ)
    (hlen : sc.length = 2)
    (hdist : sc.data.getD 0 ' ' ≠ sc.data.getD 1 ' ')
    (hrule : rule = "zeros_fill" ∨ rule = "clone_primary_fill" ∨
      rule = "clone_secondary_fill")
    (h0 : 0 ≤ tol) (h1 : tol < 1)
    (hp1 : w.stats.primary_component.length = 1)
    (habs : w.stats.primary_component ∉ w.traces.map Prod.fst)
    (hin : w.traces.all
      (fun kv => strIn kv.1 (sc ++ w.stats.primary_component)) = true) :
    (w.apply_fill_rule sc rule tol).2 =
      .error (.keyError ("primary_component " ++ w.stats.primary_component ++
        " is not a key in this Window.")) ∧
    (w.apply_fill_rule sc rule tol).1.traces = w.traces := by
  set w1 : Window :=
    { w with stats := { w.stats with secondary_components := some sc } } with hdefw1
  obtain ⟨checks, hch, hkeys⟩ := run_fvalid_checks_ok w1 tol h0 h1
  obtain ⟨p, hp⟩ := List.length_eq_one.mp
    (show w.stats.primary_component.data.length = 1 from hp1)
  have hsing : String.singleton p = w.stats.primary_component := by
    show String.mk [p] = w.stats.primary_component
    rw [← hp]
  have hany : checks.any (fun kv => kv.1 == String.singleton p) = false := by
    apply any_key_eq_false
    rw [hkeys]
    show String.singleton p ∉ w.traces.map Prod.fst
    rw [hsing]; exact habs
  have habs1 : w1.stats.primary_component ∉ w1.traces.map Prod.fst := habs
  have hmem : (String.singleton p, false) ∈ Window.mark_absent_components checks
      (w1.stats.primary_component ++ w1.stats.secondary_components.getD "") := by
    apply mark_absent_mem_head checks p _ sc.data _ hany
    show (w.stats.primary_component ++ sc).data = p :: sc.data
    rw [String.data_append, hp]
    rfl
  have hallf : (Window.mark_absent_components checks
      (w1.stats.primary_component ++ w1.stats.secondary_components.getD "")).all
        (fun kv => kv.2) = false := all_snd_false_of_mem hmem
  unfold Window.apply_fill_rule
  rw [if_neg (not_not_intro hrule), set_secondary_ok w sc hlen hdist hin]
  simp only [← hdefw1, hch, hallf, Bool.false_eq_true, if_false]
  rcases hrule with hr | hr | hr <;> subst hr
  · rw [if_pos rfl,
      zeros_fill_missing_primary w1 _ habs1]
    exact ⟨rfl, rfl⟩
  · rw [if_neg (by decide), if_pos rfl,
      clone_primary_fill_missing_primary w1 _ habs1]
    exact ⟨rfl, rfl⟩
  · rw [if_neg (by decide), if_neg (by decide),
      clone_secondary_fill_missing_primary w1 _ habs1]
    exact ⟨rfl, rfl⟩

/-- C2 witness: the amended statement applied to a concrete Window holding
only the designated secondaries N, E with primary Z absent, under the
zeros_fill rule. -/
theorem c2_amended_witness :
    (witWindowC2.apply_fill_rule "NE" "zeros_fill" 0).2 =
      .error (.keyError "primary_component Z is not a key in this Window.") ∧
    (witWindowC2.apply_fill_rule "NE" "zeros_fill" 0).1.traces =
      witWindowC2.traces :=
  c2_amended_missing_primary_no_mutation witWindowC2 "NE" "zeros_fill" 0
    (by decide) (by decide) (Or.inl rfl) (by norm_num) (by norm_num)
    (by decide) (by decide) (by decide)

end PULSE
